import Mathlib

/-!
Shallow embedding of the cocoapods-size measurement pipeline
(`measure_cocoapod_size.py`, `xcode_project_diff.py`, `utils.py`).

Python dicts built with `object_pairs_hook=OrderedDict` (and insertion-ordered
plain dicts) are modelled as association lists `List (String × α)`;
exceptions are modelled with `Except`.
-/

/-- The exceptions raised by the measurement pipeline: `ValueError` and
`KeyError` carry their message, `IndexError` is raised by out-of-range list
indexing, `CalledProcessError` and `TimeoutExpired` come out of
`subprocess.run`. -/
inductive PyError where
  | valueError (msg : String)
  | keyError (msg : String)
  | indexError
  | calledProcessError (msg : String)
  | timeoutExpired (msg : String)
deriving DecidableEq, Repr

/-- What the external process started by `subprocess.run(check=True, ...)`
does: exit 0 (with the captured stdout when a pipe was requested, `none`
otherwise), exit non-zero, or exceed the timeout. -/
inductive ProcOutcome where
  | success (stdout : Option String)
  | nonzeroExit (msg : String)
  | timedOut (msg : String)
deriving DecidableEq, Repr

/-- `subprocess.run(command, shell=True, check=True, timeout=...)` as
`utils.shell` calls it: returns the completed process's stdout on success and
raises `CalledProcessError` on a non-zero exit status or `TimeoutExpired` on
an elapsed timeout. -/
def subprocessRun (outcome : ProcOutcome) : Except PyError (Option String) :=
  match outcome with
  | .success stdout => .ok stdout
  | .nonzeroExit m => .error (.calledProcessError m)
  | .timedOut m => .error (.timeoutExpired m)

/-- `utils.shell` (utils.py lines 19-31): prints the command, runs it, and on
`CalledProcessError` or `TimeoutExpired` prints a diagnostic and falls off the
end (returning `None`); any other exception would propagate. The first
component collects the printed lines, the second is the returned value or the
escaping exception. -/
def shell (command : String) (timeout : Option Nat) (outcome : ProcOutcome) :
    List String × Except PyError (Option String) :=
  let header := "[Cocoapods-size] Shell: " ++ command
  match subprocessRun outcome with
  | .ok stdout => ([header], .ok stdout)
  | .error (.calledProcessError e) =>
      ([header, "Command error: " ++ command ++ " \n " ++ e], .ok none)
  | .error (.timeoutExpired e) =>
      ((header ::
          (match timeout with
           | some t => ["Time out is set to " ++ toString t ++ " secs."]
           | none => [])) ++
        ["Command times out: " ++ command ++ " \n " ++ e],
       .ok none)
  | .error e => ([header], .error e)

/-- One pod config object of the `--cocoapods_source_config` JSON document: an
ordered sequence of string key/value pairs (parsed with
`object_pairs_hook=OrderedDict`). -/
abbrev PodConfig := List (String × String)

/-- The top-level `--cocoapods_source_config` JSON document: an ordered object
whose `"pods"` key (the only one the program reads) holds the pod configs. -/
abbrev PodSources := List (String × List PodConfig)

/-- Python's `str.strip()` with no argument: the string with leading and
trailing whitespace removed. -/
def pyStrip (s : String) : String :=
  String.mk (((s.data.dropWhile Char.isWhitespace).reverse.dropWhile Char.isWhitespace).reverse)

/-- Python list indexing `l[i]`, which raises `IndexError` out of range. -/
def pyIndex {α : Type} (l : List α) (i : Nat) : Except PyError α :=
  match l.get? i with
  | some x => .ok x
  | none => .error .indexError

/-- The body of the `for pod_config in pod_sources['pods']` loop of
`ValidateSourceConfig` (measure_cocoapod_size.py lines 128-152) for one pod
config. `pod_config['sdk']` raises `KeyError` when absent (the code prints
"SDK should be specified." and re-raises); since an entry holding an `sdk`
key is non-empty, the Python condition
`pod_config and (source_keys[1] not in {"git", "path"})` always evaluates
`source_keys[1]`. -/
def validatePodConfig (pod_config : PodConfig) : Except PyError Unit :=
  let source_keys := pod_config.map Prod.fst
  match pod_config.lookup "sdk" with
  | none => .error (.keyError "sdk")
  | some sdk =>
    if pyStrip sdk = "" then
      .error (.valueError "SDK should not be empty or blank.")
    else
      match pyIndex source_keys 1 with
      | .error e => .error e
      | .ok k1 =>
        if ¬(k1 = "git" ∨ k1 = "path") then
          .error (.valueError ("Pod source of SDK " ++ sdk ++ " should be `git` or `path`."))
        else if source_keys.length = 3 then
          if k1 ≠ "git" then
            .error (.valueError ("For multiple specs for the SDK " ++ sdk ++
              " ,`git` should be added with `branch`, `tag` or `commit`"))
          else
            match pyIndex source_keys 2 with
            | .error e => .error e
            | .ok k2 =>
              if ¬(k2 = "branch" ∨ k2 = "tag" ∨ k2 = "commit") then
                .error (.valueError ("A specified version of the SDK " ++ sdk ++
                  " should be from `branch`, `tag` or `commit`."))
              else .ok ()
        else if source_keys.length > 3 then
          .error (.valueError ("Pod source of SDK " ++ sdk ++
            " can only specify `sdk` with `path`, `git`, or `git` and a reference (like a `branch`, `tag`, or `commit`).See --help for an example config."))
        else .ok ()

/-- The validation loop over all pod configs: the first violation aborts. -/
def validateAllPodConfigs : List PodConfig → Except PyError Unit
  | [] => .ok ()
  | c :: rest =>
    match validatePodConfig c with
    | .ok () => validateAllPodConfigs rest
    | .error e => .error e

/-- `ValidateSourceConfig` (measure_cocoapod_size.py lines 123-152): requires
the top-level `pods` key, then checks every pod config in order. -/
def ValidateSourceConfig (pod_sources : PodSources) : Except PyError Unit :=
  match pod_sources.lookup "pods" with
  | none =>
      .error (.valueError "The JSON config file should have 'pods' object containing pod configs.")
  | some pods => validateAllPodConfigs pods

/-- The first pod config whose `sdk` value equals the requested pod name
(the `for pod_config in pod_sources['pods']` search with `break` in
`InstallPods`, measure_cocoapod_size.py lines 97-104). -/
def findPodConfig (pod : String) : List PodConfig → Option PodConfig
  | [] => none
  | c :: rest => if c.lookup "sdk" = some pod then some c else findPodConfig pod rest

/-- The source arguments `InstallPods` renders for a matched pod config
(lines 99-102): each non-`sdk` key/value pair, in original order, rendered
`:key => 'value'`. -/
def podSourceConfigArgs (c : PodConfig) : List String :=
  (c.filter (fun kv => kv.1 ≠ "sdk")).map (fun kv => ":" ++ kv.1 ++ " => '" ++ kv.2 ++ "'")

/-- What `InstallPods` writes into the Podfile's target block for one
requested pod (measure_cocoapod_size.py lines 89-106): a versioned line when
the version string is non-empty; otherwise, when a source config was given
(`pod_sources is not None`, modelled as its `pods` list), the line built from
the first matching config — and nothing at all when no config matches;
otherwise a bare line. -/
def podfileDependencyLine (pod_sources : Option (List PodConfig)) (pod version : String) :
    String :=
  if version ≠ "" then
    " pod '" ++ pod ++ "', '" ++ version ++ "'\n"
  else
    match pod_sources with
    | some pods =>
      match findPodConfig pod pods with
      | some c => " pod '" ++ pod ++ "', " ++ String.intercalate "," (podSourceConfigArgs c) ++ "\n"
      | none => ""
    | none => " pod '" ++ pod ++ "'\n"

/-- The full Podfile text `InstallPods` writes (measure_cocoapod_size.py
lines 81-107): optional platform directive, one source directive per spec
repo, blank line, static-linkage directive, then the target block with the
dependency lines in request order. -/
def podfileText (cocoapods : List (String × String)) (spec_repos : List String)
    (target_name : String) (pod_sources : Option (List PodConfig))
    (ios_version : Option String) : String :=
  (match ios_version with
   | some v => "platform :ios, '" ++ v ++ "'\n"
   | none => "") ++
  String.join (spec_repos.map (fun repo => "source \"" ++ repo ++ "\"\n")) ++
  "\n" ++
  "use_frameworks! :linkage => :static\n" ++
  "target '" ++ target_name ++ "' do\n" ++
  String.join (cocoapods.map (fun pv => podfileDependencyLine pod_sources pv.1 pv.2)) ++
  "end"

/-- measure_cocoapod_size.py line 43. -/
def MASTER_SOURCE : String := "master"

/-- measure_cocoapod_size.py lines 45-50: the well-known spec-repo aliases
and their canonical locators. -/
def SPEC_REPO_DICT : List (String × String) :=
  [("cpdc-internal", "sso://cpdc-internal/spec"),
   ("cpdc-eap", "sso://cpdc-eap/spec"),
   ("specsstaging", "https://github.com/firebase/SpecsStaging"),
   ("master", "https://cdn.cocoapods.org/")]

/-- measure_cocoapod_size.py line 41. -/
def DEFAULT_SPEC_REPOS : List String := ["https://cdn.cocoapods.org/"]

/-- The per-entry expansion of lines 171-175: a well-known alias becomes its
canonical locator, anything else passes through unchanged. -/
def canonicalRepo (repo : String) : String :=
  match SPEC_REPO_DICT.lookup repo with
  | some url => url
  | none => repo

/-- The spec-repo preprocessing of `GetPodSizeImpact`
(measure_cocoapod_size.py lines 162-177): an empty (falsy) input falls back
to the defaults; otherwise the first occurrence of the master alias, when
present, is popped and appended at the end, and every entry is then expanded
through `SPEC_REPO_DICT`. -/
def buildSpecRepos (input : List String) : List String :=
  if input = [] then DEFAULT_SPEC_REPOS
  else
    let moved :=
      if MASTER_SOURCE ∈ input then input.erase MASTER_SOURCE ++ [MASTER_SOURCE] else input
    moved.map canonicalRepo

/-- The `target_pods` string of the zero-size error message
(measure_cocoapod_size.py lines 238-240): each requested pod rendered
`name:version` when its version string is non-empty and as the bare name
otherwise, joined by newlines. -/
def formatTargetPods (cocoapods : List (String × String)) : String :=
  String.intercalate "\n"
    (cocoapods.map (fun pv => if pv.2 ≠ "" then pv.1 ++ ":" ++ pv.2 else pv.1))

/-- The outcome of the reporting tail of `GetPodSizeImpact`
(measure_cocoapod_size.py lines 237-244): a `ValueError` naming every
requested pod when the measured target size is 0, and the printed delta
message otherwise. -/
def podSizeImpactReport (cocoapods : List (String × String))
    (source_size target_size : Int) : Except String String :=
  if target_size = 0 then
    .error ("The size of the following pod combination is 0 and this could be caused by a failed build.\n"
      ++ formatTargetPods cocoapods)
  else
    .ok ("The pods combined add an extra size of " ++ toString (target_size - source_size) ++ " bytes")

/-- The whole report phase of `GetPodSizeImpact` after the two sizes are
measured (measure_cocoapod_size.py lines 224-244), in program order: when
`--json` was given, the Podfile's JSON rendering is first extended with
`combined_pods_extra_size = target_size - source_size` and written out; only
then is the zero-target-size check made. First component: the delta persisted
to the JSON output file, if any; second: the run's outcome. -/
def jsonThenCheck (json_out : Bool) (cocoapods : List (String × String))
    (source_size target_size : Int) : Option Int × Except String String :=
  (if json_out then some (target_size - source_size) else none,
   podSizeImpactReport cocoapods source_size target_size)

/-- A node of the on-disk file tree under an archive path: a regular file
with its byte length (what `wc -c` reports), or a directory with its named
children. -/
inductive FsEntry where
  | file (name : String) (size : Nat)
  | dir (name : String) (children : List FsEntry)
deriving Repr

/-- The child directory of the given name, when the path component resolves
to a directory (`os.walk` of a path that resolves to nothing, or to a
regular file, yields no entries at all). -/
def findDir (name : String) : List FsEntry → Option (List FsEntry)
  | [] => none
  | .file _ _ :: rest => findDir name rest
  | .dir n cs :: rest => if n = name then some cs else findDir name rest

/-- The running `binary_size` accumulation of the
`for (dirpath, _, filenames) in os.walk(app_path)` loop of
`GetFinalBinarySize` (xcode_project_diff.py lines 115-119): every regular
file in the tree contributes its byte length. -/
def walkSizeSum : List FsEntry → Nat
  | [] => 0
  | .file _ size :: rest => size + walkSizeSum rest
  | .dir _ children :: rest => walkSizeSum children + walkSizeSum rest

/-- `GetFinalBinarySize` (xcode_project_diff.py lines 104-120): sums the byte
lengths of the regular files under `<archive>/Products/Applications`;
`os.walk` of an absent subtree yields nothing, leaving the initial 0. -/
def GetFinalBinarySize (archive : List FsEntry) : Nat :=
  match findDir "Products" archive with
  | none => 0
  | some products =>
    match findDir "Applications" products with
    | none => 0
    | some apps => walkSizeSum apps

/-- The byte lengths of all regular files found by a recursive walk of a
tree, in walk order (spec-side description of `os.walk`). -/
def walkFileSizes : List FsEntry → List Nat
  | [] => []
  | .file _ size :: rest => size :: walkFileSizes rest
  | .dir _ children :: rest => walkFileSizes children ++ walkFileSizes rest

/-- The classification message `xcode_project_diff.Main` prints once the two
sizes are known (xcode_project_diff.py lines 185-194). -/
def diffSizeMessage (source_project target_project : String)
    (source_size target_size : Int) : String :=
  let diff_size := source_size - target_size
  if source_size > target_size then
    source_project ++ " is " ++ toString diff_size ++ " larger than " ++ target_project
  else if source_size = target_size then
    source_project ++ " and " ++ target_project ++ " are the same size"
  else
    source_project ++ " is " ++ toString (-1 * diff_size) ++ " smaller than " ++ target_project

/-- Claim C2's per-dependency rendering as amended, stated from the claim's
words: an explicit-version line when the version string is non-empty; else,
when an override set is supplied, the first matching entry's non-identifier
key/value pairs in original order (each rendered `:key => 'value'`, comma
joined) — and no line at all when no entry matches; else a bare line. -/
def claimDependencyLine (pod_sources : Option (List PodConfig)) (pod version : String) :
    String :=
  if version ≠ "" then
    " pod '" ++ pod ++ "', '" ++ version ++ "'\n"
  else
    match pod_sources with
    | none => " pod '" ++ pod ++ "'\n"
    | some pods =>
      match findPodConfig pod pods with
      | some c =>
        " pod '" ++ pod ++ "', " ++
          String.intercalate ","
            ((c.filter (fun kv => kv.1 ≠ "sdk")).map
              (fun kv => ":" ++ kv.1 ++ " => '" ++ kv.2 ++ "'")) ++ "\n"
      | none => ""

/-- A sample archive tree: `Products/Applications` holds bundle files of
sizes 100, 250 and 0 bytes. -/
def sampleArchive : List FsEntry :=
  [FsEntry.dir "Products"
    [FsEntry.dir "Applications"
      [FsEntry.dir "TestApp.app" [FsEntry.file "binary" 100, FsEntry.file "asset" 250],
       FsEntry.file "PkgInfo" 0]]]

/-- The walk accumulation of `GetFinalBinarySize` equals the sum of the byte
lengths of all regular files the walk finds. -/
theorem walkSizeSum_eq_sum (l : List FsEntry) : walkSizeSum l = (walkFileSizes l).sum := by
  induction l using walkSizeSum.induct with
  | case1 => simp [walkSizeSum, walkFileSizes]
  | case2 n size rest ih => simp [walkSizeSum, walkFileSizes, ih]
  | case3 n children rest ih1 ih2 => simp [walkSizeSum, walkFileSizes, ih1, ih2]

/-- C1: when the measured target size is 0, `GetPodSizeImpact` raises a
`ValueError` whose message enumerates every requested dependency, rendered
`name:version` when the version string is non-empty and as the bare name when
it is empty; when the target size is non-zero no such error is raised. -/
theorem zero_target_size_error (cocoapods : List (String × String))
    (source_size target_size : Int) :
    podSizeImpactReport cocoapods source_size 0 =
      .error ("The size of the following pod combination is 0 and this could be caused by a failed build.\n"
        ++ String.intercalate "\n"
          (cocoapods.map (fun pv => if pv.2 ≠ "" then pv.1 ++ ":" ++ pv.2 else pv.1))) ∧
    (target_size ≠ 0 →
      ∃ m, podSizeImpactReport cocoapods source_size target_size = .ok m) := by
  constructor
  · rfl
  · intro h
    exact ⟨_, by rw [podSizeImpactReport, if_neg h]⟩

/-- Witness for C1 at a concrete request and a non-zero target size. -/
theorem zero_target_size_error_witness :
    (1200 : Int) ≠ 0 ∧
    (∃ m, podSizeImpactReport [("FirebaseABTesting", ""), ("AnErrorPod", "8.0.0")] 500 1200 =
      .ok m) :=
  ⟨by decide,
   (zero_target_size_error [("FirebaseABTesting", ""), ("AnErrorPod", "8.0.0")] 500 1200).2
     (by decide)⟩

/-- C2 counterexample: a dependency with empty version gets NO line at all
when an override set is supplied but contains no matching entry — the
synthesized manifest's target block is empty, not a bare unversioned line. -/
theorem unmatched_override_writes_no_line :
    podfileText [("A", "")] ["https://cdn.cocoapods.org/"] "SizeTest"
        (some [[("sdk", "B"), ("git", "https://example.com/b.git"), ("branch", "main")]]) none =
      "source \"https://cdn.cocoapods.org/\"\n\nuse_frameworks! :linkage => :static\ntarget 'SizeTest' do\nend" := by
  rfl

/-- C2 as amended: for every dependency in request order the manifest's
target block contains exactly the rendering of `claimDependencyLine`: the
literal-version line when the version is non-empty; else with an override set
the matching entry's non-identifier pairs in original order, and no line when
no entry matches; else a bare line. -/
theorem podfile_target_block_lines (cocoapods : List (String × String))
    (spec_repos : List String) (target_name : String)
    (pod_sources : Option (List PodConfig)) (ios_version : Option String) :
    podfileText cocoapods spec_repos target_name pod_sources ios_version =
      (match ios_version with
       | some v => "platform :ios, '" ++ v ++ "'\n"
       | none => "") ++
      String.join (spec_repos.map (fun repo => "source \"" ++ repo ++ "\"\n")) ++
      "\n" ++
      "use_frameworks! :linkage => :static\n" ++
      "target '" ++ target_name ++ "' do\n" ++
      String.join (cocoapods.map (fun pv => claimDependencyLine pod_sources pv.1 pv.2)) ++
      "end" := by
  have hline : (fun pv : String × String => podfileDependencyLine pod_sources pv.1 pv.2) =
      (fun pv : String × String => claimDependencyLine pod_sources pv.1 pv.2) := by
    funext pv
    cases pod_sources <;> rfl
  unfold podfileText
  rw [hline]

/-- C3: `ValidateSourceConfig` accepts keys `{sdk, git, branch}` in that
order; it rejects `{sdk, path, branch}`, rejects the four keys
`{sdk, git, branch, tag}`, rejects a blank `sdk` value, and rejects a
document lacking the top-level `pods` key; each message identifies the
offending identifier (`Foo`) or the violated rule. -/
theorem validate_source_config_cases :
    (∀ g b : String,
      ValidateSourceConfig [("pods", [[("sdk", "Foo"), ("git", g), ("branch", b)]])] = .ok ()) ∧
    (∀ p b : String,
      ValidateSourceConfig [("pods", [[("sdk", "Foo"), ("path", p), ("branch", b)]])] =
        .error (.valueError
          "For multiple specs for the SDK Foo ,`git` should be added with `branch`, `tag` or `commit`")) ∧
    (∀ g b t : String,
      ValidateSourceConfig [("pods", [[("sdk", "Foo"), ("git", g), ("branch", b), ("tag", t)]])] =
        .error (.valueError
          "Pod source of SDK Foo can only specify `sdk` with `path`, `git`, or `git` and a reference (like a `branch`, `tag`, or `commit`).See --help for an example config.")) ∧
    (∀ g : String,
      ValidateSourceConfig [("pods", [[("sdk", ""), ("git", g)]])] =
        .error (.valueError "SDK should not be empty or blank.")) ∧
    (∀ g : String,
      ValidateSourceConfig [("pods", [[("sdk", "   "), ("git", g)]])] =
        .error (.valueError "SDK should not be empty or blank.")) ∧
    ValidateSourceConfig [] =
      .error (.valueError "The JSON config file should have 'pods' object containing pod configs.") :=
  ⟨fun _ _ => rfl, fun _ _ => rfl, fun _ _ _ => rfl, fun _ => rfl, fun _ => rfl, rfl⟩

/-- C4: when the master alias occurs in the spec-repo input, the synthesized
source sequence is the canonical expansion of the other entries in their
original relative order followed by the master alias's canonical locator
last; well-known aliases expand through `SPEC_REPO_DICT` and unknown entries
pass through unchanged. -/
theorem master_source_moved_last (l : List String) (h : MASTER_SOURCE ∈ l) :
    buildSpecRepos l =
      (l.erase MASTER_SOURCE).map canonicalRepo ++ ["https://cdn.cocoapods.org/"] ∧
    (∀ r, SPEC_REPO_DICT.lookup r = none → canonicalRepo r = r) ∧
    (∀ r u, SPEC_REPO_DICT.lookup r = some u → canonicalRepo r = u) := by
  refine ⟨?_, ?_, ?_⟩
  · have hne : ¬(l = []) := by rintro rfl; simp at h
    rw [buildSpecRepos, if_neg hne]
    simp only [if_pos h, List.map_append]
    rfl
  · intro r hr
    simp [canonicalRepo, hr]
  · intro r u hr
    simp [canonicalRepo, hr]

/-- Witness for C4 at a concrete alias sequence containing the master alias
first. -/
theorem master_source_moved_last_witness :
    MASTER_SOURCE ∈ (["master", "specsstaging", "https://example.com/custom"] : List String) ∧
    (buildSpecRepos ["master", "specsstaging", "https://example.com/custom"] =
        ((["master", "specsstaging", "https://example.com/custom"] : List String).erase
            MASTER_SOURCE).map canonicalRepo ++ ["https://cdn.cocoapods.org/"] ∧
      (∀ r, SPEC_REPO_DICT.lookup r = none → canonicalRepo r = r) ∧
      (∀ r u, SPEC_REPO_DICT.lookup r = some u → canonicalRepo r = u)) :=
  ⟨by decide, master_source_moved_last _ (by decide)⟩

/-- C5: with a non-zero target size the reporter's message is classified by
the sign of `delta = target_size - source_size`: a growth message carrying
`delta` when positive, a shrink message carrying `-delta` when negative, and
the unchanged message when zero (xcode_project_diff.py prints them from the
source project's perspective: "smaller", "larger", "same size"). -/
theorem size_diff_three_way_classification (sp tp : String) (s t : Int) (ht : t ≠ 0) :
    (0 < t - s →
      diffSizeMessage sp tp s t = sp ++ " is " ++ toString (t - s) ++ " smaller than " ++ tp) ∧
    (t - s < 0 →
      diffSizeMessage sp tp s t = sp ++ " is " ++ toString (s - t) ++ " larger than " ++ tp) ∧
    (t - s = 0 →
      diffSizeMessage sp tp s t = sp ++ " and " ++ tp ++ " are the same size") := by
  refine ⟨?_, ?_, ?_⟩ <;> intro h
  · have h1 : ¬(s > t) := by omega
    have h2 : ¬(s = t) := by omega
    rw [diffSizeMessage]
    simp only [if_neg h1, if_neg h2]
    rw [show -1 * (s - t) = t - s by ring]
  · have h1 : s > t := by omega
    rw [diffSizeMessage]
    simp only [if_pos h1]
  · have h1 : ¬(s > t) := by omega
    have h2 : s = t := by omega
    rw [diffSizeMessage]
    simp only [if_neg h1, if_pos h2]

/-- Witness for C5 at sizes 1000 and 1200: the positive delta 200 yields the
growth-classified message. -/
theorem size_diff_three_way_classification_witness :
    (1200 : Int) ≠ 0 ∧
    ((0 < (1200 : Int) - 1000 →
      diffSizeMessage "baseline" "withpods" 1000 1200 =
        "baseline" ++ " is " ++ toString ((1200 : Int) - 1000) ++ " smaller than " ++ "withpods") ∧
    ((1200 : Int) - 1000 < 0 →
      diffSizeMessage "baseline" "withpods" 1000 1200 =
        "baseline" ++ " is " ++ toString ((1000 : Int) - 1200) ++ " larger than " ++ "withpods") ∧
    ((1200 : Int) - 1000 = 0 →
      diffSizeMessage "baseline" "withpods" 1000 1200 =
        "baseline" ++ " and " ++ "withpods" ++ " are the same size")) :=
  ⟨by decide, size_diff_three_way_classification "baseline" "withpods" 1000 1200 (by decide)⟩

/-- C6 counterexample: with structured JSON output requested and a measured
target size of 0, `GetPodSizeImpact` persists the report — including the
meaningless negative delta -500 — and only afterwards raises the
measurement-failure error, so the report is not persisted only on successful
runs. -/
theorem json_report_persisted_on_zero_size :
    jsonThenCheck true [("A", "1.0")] 500 0 =
      (some (-500),
       .error "The size of the following pod combination is 0 and this could be caused by a failed build.\nA:1.0") := by
  rfl

/-- C6 as amended: when structured JSON output is requested the delta report
is persisted on every run, before the zero-size check; a zero-target-size run
persists the report (with its delta) and then terminates with the
measurement-failure error. -/
theorem json_report_always_persisted (json_out : Bool)
    (cocoapods : List (String × String)) (s t : Int) :
    (jsonThenCheck json_out cocoapods s t).1 = (if json_out then some (t - s) else none) ∧
    (t = 0 → (jsonThenCheck json_out cocoapods s t).2 =
      .error ("The size of the following pod combination is 0 and this could be caused by a failed build.\n"
        ++ formatTargetPods cocoapods)) := by
  constructor
  · rfl
  · intro ht
    subst ht
    rfl

/-- Witness for C6 as amended, at a zero target size with JSON output on. -/
theorem json_report_always_persisted_witness :
    ((0 : Int) = 0) ∧
    ((jsonThenCheck true [("B", "")] 300 0).2 =
      .error ("The size of the following pod combination is 0 and this could be caused by a failed build.\n"
        ++ formatTargetPods [("B", "")])) :=
  ⟨rfl, (json_report_always_persisted true [("B", "")] 300 0).2 rfl⟩

/-- C7: `GetFinalBinarySize` returns the sum of the byte lengths of all
regular files found by a recursive walk of the `Products/Applications`
subtree, 0 when that subtree is absent; files of sizes 100, 250 and 0 yield
350, and a tree without the bundle subtree yields 0. -/
theorem final_binary_size_sums_bundle_files :
    (∀ archive : List FsEntry,
      GetFinalBinarySize archive =
        match findDir "Products" archive with
        | none => 0
        | some products =>
          match findDir "Applications" products with
          | none => 0
          | some apps => (walkFileSizes apps).sum) ∧
    GetFinalBinarySize sampleArchive = 350 ∧
    GetFinalBinarySize [FsEntry.dir "OtherOutput" [FsEntry.file "log" 4096]] = 0 := by
  refine ⟨?_, ?_, ?_⟩
  · intro archive
    rcases hp : findDir "Products" archive with _ | products
    · simp only [GetFinalBinarySize, hp]
    · rcases ha : findDir "Applications" products with _ | apps
      · simp only [GetFinalBinarySize, hp, ha]
      · simp only [GetFinalBinarySize, hp, ha, walkSizeSum_eq_sum]
  · simp [GetFinalBinarySize, sampleArchive, findDir, walkSizeSum]
  · simp [GetFinalBinarySize, findDir]

/-- C8: a non-zero exit status or an expired timeout in `utils.shell` never
raises to the caller — the wrapper returns normally (with `None`) after
printing at least one diagnostic line beyond the command header. -/
theorem shell_returns_normally_on_failure (command : String) (timeout : Option Nat)
    (outcome : ProcOutcome) (h : ∀ s, outcome ≠ ProcOutcome.success s) :
    (shell command timeout outcome).2 = Except.ok none ∧
      2 ≤ (shell command timeout outcome).1.length := by
  cases outcome with
  | success s => exact absurd rfl (h s)
  | nonzeroExit m => exact ⟨rfl, by simp [shell, subprocessRun]⟩
  | timedOut m =>
    cases timeout with
    | none => exact ⟨rfl, by simp [shell, subprocessRun]⟩
    | some t => exact ⟨rfl, by simp [shell, subprocessRun]⟩

/-- Witness for C8 at a concrete timed-out build command. -/
theorem shell_returns_normally_on_failure_witness :
    (∀ s, ProcOutcome.timedOut "TimeoutExpired" ≠ ProcOutcome.success s) ∧
    ((shell "xcodebuild archive" (some 1800) (ProcOutcome.timedOut "TimeoutExpired")).2 =
        Except.ok none ∧
      2 ≤ (shell "xcodebuild archive" (some 1800) (ProcOutcome.timedOut "TimeoutExpired")).1.length) :=
  ⟨fun s => by simp,
   shell_returns_normally_on_failure "xcodebuild archive" (some 1800)
     (ProcOutcome.timedOut "TimeoutExpired") (fun s => by simp)⟩

/-- C9: manifest synthesis is deterministic — two runs of the Podfile
emission on identical dependency request, spec repos, target name, source
overrides and platform version produce byte-identical manifest text. -/
theorem podfile_text_deterministic (c₁ c₂ : List (String × String)) (r₁ r₂ : List String)
    (t₁ t₂ : String) (p₁ p₂ : Option (List PodConfig)) (i₁ i₂ : Option String)
    (hc : c₁ = c₂) (hr : r₁ = r₂) (ht : t₁ = t₂) (hp : p₁ = p₂) (hi : i₁ = i₂) :
    podfileText c₁ r₁ t₁ p₁ i₁ = podfileText c₂ r₂ t₂ p₂ i₂ := by
  subst hc hr ht hp hi
  rfl

/-- Witness for C9 at a concrete request run twice. -/
theorem podfile_text_deterministic_witness :
    ([("LibA", "2.0"), ("LibB", "")] : List (String × String)) = [("LibA", "2.0"), ("LibB", "")] ∧
    podfileText [("LibA", "2.0"), ("LibB", "")] ["https://cdn.cocoapods.org/"] "SizeTest" none
        (some "13.0") =
      podfileText [("LibA", "2.0"), ("LibB", "")] ["https://cdn.cocoapods.org/"] "SizeTest" none
        (some "13.0") :=
  ⟨rfl,
   podfile_text_deterministic _ _ _ _ _ _ _ _ _ _ rfl rfl rfl rfl rfl⟩

/-- C10: `ValidateSourceConfig`'s per-entry check indexes the second key
unconditionally once the identifier is non-blank, so it avoids `IndexError`
only when every entry has at least two keys; the entry whose only key is a
non-blank `sdk` raises `IndexError` instead of a descriptive validation
failure. -/
theorem validate_pod_config_indexerror :
    (∀ c : PodConfig, 2 ≤ c.length → validatePodConfig c ≠ .error .indexError) ∧
    validatePodConfig [("sdk", "Foo")] = .error .indexError := by
  constructor
  · intro c hc
    have hlen : 2 ≤ (c.map Prod.fst).length := by simpa using hc
    unfold validatePodConfig
    cases hsdk : c.lookup "sdk" with
    | none => simp
    | some sdk =>
      simp only []
      by_cases htrim : pyStrip sdk = ""
      · simp [htrim]
      · rw [if_neg htrim]
        cases h1 : (c.map Prod.fst).get? 1 with
        | none =>
          exfalso
          rw [List.get?_eq_none] at h1
          omega
        | some k1 =>
          simp only [pyIndex, h1]
          by_cases hk1 : k1 = "git" ∨ k1 = "path"
          · rw [if_neg (not_not_intro hk1)]
            by_cases h3 : (c.map Prod.fst).length = 3
            · rw [if_pos h3]
              by_cases hg : k1 = "git"
              · rw [if_neg (by simpa using hg)]
                cases h2 : (c.map Prod.fst).get? 2 with
                | none =>
                  exfalso
                  rw [List.get?_eq_none] at h2
                  omega
                | some k2 =>
                  simp only [pyIndex, h2]
                  split <;> simp
              · rw [if_pos hg]
                simp
            · rw [if_neg h3]
              split <;> simp
          · rw [if_pos hk1]
            simp
  · rfl

/-- Witness for C10 at a two-key entry, which cannot hit `IndexError`. -/
theorem validate_pod_config_indexerror_witness :
    2 ≤ ([("sdk", "Foo"), ("git", "https://example.com/foo.git")] : PodConfig).length ∧
    validatePodConfig [("sdk", "Foo"), ("git", "https://example.com/foo.git")] ≠
      .error .indexError :=
  ⟨by decide, validate_pod_config_indexerror.1 _ (by decide)⟩
